import Mathlib

/-!
Verification development for the Octra wallet extension sample dApp
repository: shallow embedding of the shared store, the wallet access
manager, the two user-facing surface controllers, the surface policy,
the request registry and the page-side SDK, together with theorems
settling the specification claims about them.
-/

/-- A decrypted wallet record, as handled by the wallet manager and the
surface controllers.  Only the address field is inspected by the embedded
code; the remaining payload is outside the scope of the claims. -/
structure Wallet where
  address : String
deriving DecidableEq, Repr

/-- An encrypted wallet record as persisted under the encryptedWallets
store key. -/
structure EncryptedWallet where
  address : String
  encryptedData : String
deriving DecidableEq, Repr

/-- A dApp connection request payload.  The controllers only inspect its
presence and its origin. -/
structure ConnReq where
  origin : String
  appName : String
deriving DecidableEq, Repr

/-- A dApp contract request payload (view call or state-changing call). -/
structure ContractReq where
  origin : String
  contractAddress : String
  methodName : String
deriving DecidableEq, Repr

/-- A value read back from the extension storage for a pending-request
key: either a raw string (to be JSON-parsed) or an already structured
object, mirroring the typeof check in PopupApp.tsx. -/
inductive StoredVal (α : Type) where
  | str (s : String)
  | obj (v : α)
deriving DecidableEq, Repr

/-- The shared persistent key/value store, restricted to the logical keys
named by the specification (section 6).  String-valued keys model the
string-or-absent contract of the host storage. -/
structure Store where
  walletPasswordHash : Option String
  walletPasswordSalt : Option String
  encryptedWallets : Option String
  wallets : Option String
  activeWalletId : Option String
  isWalletLocked : Option String
  pendingConnectionRequest : Option (StoredVal ConnReq)
  pendingContractRequest : Option (StoredVal ContractReq)
deriving DecidableEq, Repr

/-- JavaScript truthiness of a string-or-absent store value: absent and
the empty string are falsy, every other string is truthy. -/
def truthyStr : Option String → Bool
  | none => false
  | some s => s != ""

namespace WalletManager

/-- Authentication failures raised by unlockWallets: the code throws
No password set when hash or salt is missing, and Invalid password when
verification fails. -/
inductive AuthError where
  | noPasswordSet
  | invalidPassword
deriving DecidableEq, Repr

/-- WalletManager.isWalletSetup: true iff the walletPasswordHash store
value is truthy. -/
def isWalletSetup (st : Store) : Bool :=
  truthyStr st.walletPasswordHash

/-- WalletManager.shouldShowUnlockScreen: never gate without a recorded
password; otherwise gate when the lock flag is not the explicit string
false, or when no truthy decrypted wallet list is present. -/
def shouldShowUnlockScreen (st : Store) : Bool :=
  if !truthyStr st.walletPasswordHash then false
  else (st.isWalletLocked != some "false") || !truthyStr st.wallets

/-- WalletManager.isWalletLocked: false without a recorded password;
otherwise locked unless the lock flag is the explicit string false.
This reader consults neither the wallets key nor any other input. -/
def isWalletLocked (st : Store) : Bool :=
  if !truthyStr st.walletPasswordHash then false
  else st.isWalletLocked != some "false"

/-- The encrypted wallet collection obtained from the encryptedWallets
store value: a falsy value yields the empty batch, and a string whose
parse fails is swallowed by the surrounding catch, also yielding the
empty batch.  The parse of the host JSON codec is a parameter. -/
def parsedEncryptedOf (parseEncrypted : String → Option (List EncryptedWallet))
    (st : Store) : List EncryptedWallet :=
  match st.encryptedWallets with
  | none => []
  | some s => if s = "" then [] else (parseEncrypted s).getD []

/-- The wallets surviving the per-record decryption loop: each record is
decrypted independently and a record whose decryption (or subsequent
JSON parse) fails is dropped without aborting the batch.  The decrypt
parameter models the composition of decryptWalletData and JSON.parse,
both external collaborators. -/
def survivorsOf (decrypt : String → String → Option Wallet)
    (parseEncrypted : String → Option (List EncryptedWallet))
    (st : Store) (password : String) : List Wallet :=
  (parsedEncryptedOf parseEncrypted st).filterMap
    fun ew => decrypt ew.encryptedData password

/-- WalletManager.unlockWallets, with password verification, record
decryption and wallet-list serialization passed as parameters for the
external collaborators.  The second component of the result is the store
after the call: the two failure paths throw before any write, so they
return the store unchanged. -/
def unlockWallets (verify : String → String → String → Bool)
    (decrypt : String → String → Option Wallet)
    (parseEncrypted : String → Option (List EncryptedWallet))
    (stringifyWallets : List Wallet → String)
    (st : Store) (password : String) :
    Except AuthError (List Wallet) × Store :=
  if !truthyStr st.walletPasswordHash || !truthyStr st.walletPasswordSalt then
    (.error .noPasswordSet, st)
  else if !verify password (st.walletPasswordHash.getD "") (st.walletPasswordSalt.getD "") then
    (.error .invalidPassword, st)
  else
    let decryptedWallets := survivorsOf decrypt parseEncrypted st password
    let st1 := { st with wallets := some (stringifyWallets decryptedWallets),
                         isWalletLocked := some "false" }
    let st2 :=
      match decryptedWallets with
      | [] => st1
      | w :: _ =>
        if truthyStr st.activeWalletId then st1
        else { st1 with activeWalletId := some w.address }
    (.ok decryptedWallets, st2)

/-- WalletManager.lockWallets: removes the decrypted list and the active
pointer and sets the lock flag. -/
def lockWallets (st : Store) : Store :=
  { st with wallets := none, activeWalletId := none, isWalletLocked := some "true" }

end WalletManager

/-- The screens a surface can render: the four screens of the popup
controller, plus the tab-only ConnectionApproval screen. -/
inductive Screen where
  | dappConnection
  | dappRequestHandler
  | unlockWallet
  | welcome
  | dashboard
  | connectionApproval
deriving DecidableEq, Repr

/-- The in-memory state of the PopupApp controller after its initial
load effect has completed. -/
structure PopupState where
  wallet : Option Wallet
  wallets : List Wallet
  isLocked : Bool
  connectionRequest : Option ConnReq
  contractRequest : Option ContractReq
deriving DecidableEq, Repr

/-- The pending-request read performed at the top of loadInitialData in
PopupApp.tsx: a falsy value (absent key or empty string) is skipped
entirely; a string is JSON-parsed, and a parse failure is caught and
marks the key for removal; an object value is taken as is.  Returns the
request placed into component state and whether the key was removed. -/
def readPending {α : Type} (parse : String → Option α) :
    Option (StoredVal α) → Option α × Bool
  | none => (none, false)
  | some (.str s) =>
    if s = "" then (none, false)
    else
      match parse s with
      | some r => (some r, false)
      | none => (none, true)
  | some (.obj v) => (some v, false)

/-- The connection-entry step of loadInitialData: read the pending
connection entry and remove it from the store when the read marked it
corrupted. -/
def connPhase (parseConn : String → Option ConnReq) (st : Store) :
    Option ConnReq × Store :=
  match readPending parseConn st.pendingConnectionRequest with
  | (r, true) => (r, { st with pendingConnectionRequest := none })
  | (r, false) => (r, st)

/-- The contract-entry step of loadInitialData, performed after the
connection step on the store it left behind. -/
def contractPhase (parseContract : String → Option ContractReq) (st : Store) :
    Option ContractReq × Store :=
  match readPending parseContract st.pendingContractRequest with
  | (r, true) => (r, { st with pendingContractRequest := none })
  | (r, false) => (r, st)

/-- The pending-request phase of the loadInitialData mount effect of
PopupApp.tsx: the connection entry is read (and removed when it is a
corrupted string), then the contract entry likewise.  Returns the two
requests placed into component state and the store after any
removals. -/
def loadPendingPhase (parseConn : String → Option ConnReq)
    (parseContract : String → Option ContractReq) (st : Store) :
    (Option ConnReq × Option ContractReq) × Store :=
  (((connPhase parseConn st).1,
    (contractPhase parseContract (connPhase parseConn st).2).1),
   (contractPhase parseContract (connPhase parseConn st).2).2)

/-- The loadInitialData mount effect of PopupApp.tsx: read both pending
requests (removing a corrupted entry), consult
WalletManager.shouldShowUnlockScreen, and either stop in the locked
state or load the wallet list and the active wallet.  The JSON parse of
the wallet list is a parameter; a falsy stored value, a parse failure or
a non-array parse all leave the loaded list empty.  Returns the
component state and the store after any removals. -/
def loadInitialData (parseConn : String → Option ConnReq)
    (parseContract : String → Option ContractReq)
    (parseWallets : String → Option (List Wallet))
    (st : Store) : PopupState × Store :=
  let p := loadPendingPhase parseConn parseContract st
  if WalletManager.shouldShowUnlockScreen p.2 then
    ({ wallet := none, wallets := [], isLocked := true,
       connectionRequest := p.1.1, contractRequest := p.1.2 }, p.2)
  else
    let loadedWallets :=
      match p.2.wallets with
      | none => []
      | some s =>
        if s = "" then []
        else
          match parseWallets s with
          | some l => l
          | none => []
    let activeWallet : Option Wallet :=
      match loadedWallets with
      | [] => none
      | w :: _ =>
        match p.2.activeWalletId with
        | none => some w
        | some aid =>
          if aid = "" then some w
          else
            match loadedWallets.find? (fun x => x.address = aid) with
            | some fw => some fw
            | none => some w
    ({ wallet := activeWallet, wallets := loadedWallets, isLocked := false,
       connectionRequest := p.1.1, contractRequest := p.1.2 }, p.2)

/-- The handleUnlock callback of PopupApp.tsx: store the unlocked
wallets, clear the locked flag, and select the first wallet when the
list is non-empty.  Pending-request state is untouched. -/
def handleUnlock (s : PopupState) (unlockedWallets : List Wallet) : PopupState :=
  let s1 := { s with wallets := unlockedWallets, isLocked := false }
  match unlockedWallets with
  | [] => s1
  | w :: _ => { s1 with wallet := some w }

/-- The render decision of PopupApp.tsx after loading: connection
request screen first, then contract request screen, then unlock, then
welcome without a wallet, otherwise the dashboard. -/
def popupRender (s : PopupState) : Screen :=
  if s.connectionRequest.isSome then .dappConnection
  else if s.contractRequest.isSome then .dappRequestHandler
  else if s.isLocked then .unlockWallet
  else if s.wallet.isNone then .welcome
  else .dashboard

/-- The in-memory state of the tab-side App component of PopupApp.tsx.
The component has no contract-request state at all. -/
structure AppState where
  wallet : Option Wallet
  wallets : List Wallet
  isLocked : Bool
  connectionRequest : Option ConnReq
deriving DecidableEq, Repr

/-- The mount effects of the tab-side App component: the connection
request comes only from URL parameters (passed here as an argument), and
checkWalletStatus gates on the password hash and the lock flag alone,
loading the wallet list otherwise.  A parse failure of the stored list
is caught and leaves the list empty. -/
def appMount (parseWallets : String → Option (List Wallet)) (st : Store)
    (urlConnectionRequest : Option ConnReq) : AppState :=
  let base : AppState :=
    { wallet := none, wallets := [], isLocked := false,
      connectionRequest := urlConnectionRequest }
  if truthyStr st.walletPasswordHash && (st.isWalletLocked != some "false") then
    { base with isLocked := true }
  else
    let loadedWallets :=
      match st.wallets with
      | none => []
      | some s =>
        if s = "" then []
        else (parseWallets s).getD []
    let activeWallet : Option Wallet :=
      match loadedWallets with
      | [] => none
      | w :: _ =>
        match st.activeWalletId with
        | none => some w
        | some aid =>
          if aid = "" then some w
          else
            match loadedWallets.find? (fun x => x.address = aid) with
            | some fw => some fw
            | none => some w
    { base with wallet := activeWallet, wallets := loadedWallets }

/-- The handleUnlock callback of the tab-side App component: store the
unlocked wallets, clear the locked flag, and select the active wallet by
the stored pointer, falling back to the first entry. -/
def appHandleUnlock (st : Store) (s : AppState) (unlockedWallets : List Wallet) :
    AppState :=
  let s1 := { s with wallets := unlockedWallets, isLocked := false }
  match unlockedWallets with
  | [] => s1
  | w :: _ =>
    let active :=
      match st.activeWalletId with
      | none => w
      | some aid =>
        if aid = "" then w
        else
          match unlockedWallets.find? (fun x => x.address = aid) with
          | some fw => fw
          | none => w
    { s1 with wallet := some active }

/-- The render decision of the tab-side App component: the connection
approval screen requires a wallet and an unlocked state, then unlock,
then welcome, otherwise the dashboard.  There is no contract screen. -/
def appRender (s : AppState) : Screen :=
  if s.connectionRequest.isSome && s.wallet.isSome && !s.isLocked then .connectionApproval
  else if s.isLocked then .unlockWallet
  else if s.wallet.isNone then .welcome
  else .dashboard

/-- The request kinds handled by the surface policy. -/
inductive RequestKind where
  | connection
  | viewCall
  | stateCall
deriving DecidableEq, Repr

/-- The two window surfaces. -/
inductive SurfaceKind where
  | popup
  | tab
deriving DecidableEq, Repr

/-- Modelled from the spec: the Surface Policy lookup table of section
4.4, by which every request kind opens the popup surface.  The
background script holding the actual table is not part of the source
tree. -/
def openSurfaceSpec : RequestKind → SurfaceKind :=
  fun _ => .popup

/-- Modelled from the spec: the current behavior recorded by the
repository issue report for a dApp contract-interaction request, which
redirects to a new tab with the expanded view instead of opening the
popup.  The background script performing the redirect is not part of the
source tree; this definition records the behavior the issue report
documents. -/
def observedContractInteractionSurface : SurfaceKind :=
  .tab

/-- The surface opened by the openExpandedView user action of
PopupApp.tsx, which creates a browser tab. -/
def openExpandedViewSurface : SurfaceKind :=
  .tab

/-- The request kinds keyed in the registry: one slot per store key. -/
inductive RegKind where
  | connection
  | contract
deriving DecidableEq, Repr

/-- Modelled from the spec: a pending request held by the Request
Registry, carrying a unique id and creation timestamp (section 3). -/
structure PendingRequest where
  id : Nat
  kind : RegKind
  payload : String
  createdAt : Nat
deriving DecidableEq, Repr

/-- Modelled from the spec: the submission failure of section 4.3. -/
inductive RegistryError where
  | requestConflict
deriving DecidableEq, Repr

/-- Modelled from the spec: the Request Registry state, keyed by kind
with one slot per kind (section 4.3 persists the new request keyed by
kind), plus an id counter.  The background script holding the registry
is not part of the source tree. -/
structure Registry where
  pendingConnection : Option PendingRequest
  pendingContract : Option PendingRequest
  nextId : Nat
deriving DecidableEq, Repr

/-- Modelled from the spec: the pure read of section 4.3. -/
def Registry.peek (r : Registry) (k : RegKind) : Option PendingRequest :=
  match k with
  | .connection => r.pendingConnection
  | .contract => r.pendingContract

/-- Modelled from the spec: submit of section 4.3 fails with
RequestConflict when a request of the kind is already pending and
otherwise persists the new request keyed by kind.  The second component
is the registry after the call; the failure path returns it unchanged. -/
def Registry.submit (r : Registry) (k : RegKind) (payload : String) (now : Nat) :
    Except RegistryError Nat × Registry :=
  match r.peek k with
  | some _ => (.error .requestConflict, r)
  | none =>
    let req : PendingRequest :=
      { id := r.nextId, kind := k, payload := payload, createdAt := now }
    match k with
    | .connection =>
      (.ok r.nextId, { r with pendingConnection := some req, nextId := r.nextId + 1 })
    | .contract =>
      (.ok r.nextId, { r with pendingContract := some req, nextId := r.nextId + 1 })

namespace OctraSDK

/-- The client-side connection state of the page SDK. -/
structure SdkState where
  isConnected : Bool
  connectedAddress : Option String
deriving DecidableEq, Repr

/-- The message of the error thrown by every connection-requiring SDK
method before anything is sent to the provider. -/
def notConnectedMsg : String :=
  "Not connected to wallet. Please connect first."

/-- JavaScript string disjunction a or b with truthiness on strings:
the left value when present and non-empty, otherwise the right one. -/
def jsOr (a b : Option String) : Option String :=
  match a with
  | none => b
  | some s => if s = "" then b else some s

/-- Options of viewCall and callContract that the SDK itself inspects.
The remaining option fields (value, gas settings, description, the
structured parameter records) are forwarded to the provider unchanged
and are represented by the opaque params list. -/
structure ViewCallOptions where
  contractAddress : String
  methodName : String
  params : List String
deriving DecidableEq, Repr

/-- The resolved value of a successful viewCall. -/
structure SdkViewResult where
  success : Bool
  result : String
  type : String
deriving DecidableEq, Repr

/-- The resolved value of a successful callContract. -/
structure SdkCallResult where
  success : Bool
  txHash : Option String
  type : String
deriving DecidableEq, Repr

/-- The resolved value of a successful sendTransaction. -/
structure SdkSendResult where
  success : Bool
  txHash : Option String
deriving DecidableEq, Repr

/-- A provider response carrying transaction hash fields, of which the
SDK reads txHash and hash. -/
structure TxProviderResult where
  txHash : Option String
  hash : Option String
deriving DecidableEq, Repr

/-- A provider response to getBalance: the SDK returns the balance field
when truthy and otherwise the whole response, represented here by its
raw string form. -/
structure BalanceProviderResult where
  balance : Option String
  raw : String
deriving DecidableEq, Repr

/-- A provider response to signMessage: the SDK returns the signature
field when truthy and otherwise the whole response. -/
structure SignProviderResult where
  signature : Option String
  raw : String
deriving DecidableEq, Repr

/-- OctraSDK.viewCall.  The provider call is a parameter; the second
component of the result counts the messages sent to the provider, so
zero means the method failed fast without a round trip. -/
def viewCall (sdk : SdkState) (opts : ViewCallOptions)
    (providerView : String → String → List String → Except String String) :
    Except String SdkViewResult × Nat :=
  if !sdk.isConnected then (.error notConnectedMsg, 0)
  else if opts.contractAddress = "" || opts.methodName = "" then
    (.error "contractAddress and methodName are required", 0)
  else
    match providerView opts.contractAddress opts.methodName opts.params with
    | .ok r => (.ok { success := true, result := r, type := "view" }, 1)
    | .error m => (.error (if m = "" then "View call failed" else m), 1)

/-- OctraSDK.callContract, with the same fail-fast shape as viewCall. -/
def callContract (sdk : SdkState) (opts : ViewCallOptions)
    (providerCall : String → String → List String → Except String TxProviderResult) :
    Except String SdkCallResult × Nat :=
  if !sdk.isConnected then (.error notConnectedMsg, 0)
  else if opts.contractAddress = "" || opts.methodName = "" then
    (.error "contractAddress and methodName are required", 0)
  else
    match providerCall opts.contractAddress opts.methodName opts.params with
    | .ok r =>
      (.ok { success := true, txHash := jsOr r.txHash r.hash, type := "call" }, 1)
    | .error m => (.error (if m = "" then "Contract call failed" else m), 1)

/-- Options of sendTransaction that the SDK inspects.  The source field
named to is rendered toAddress here because to is a reserved word. -/
structure SendTxOptions where
  toAddress : String
  amount : String
  message : Option String
deriving DecidableEq, Repr

/-- OctraSDK.sendTransaction.  Note the hash field is preferred over
txHash here, the reverse of callContract. -/
def sendTransaction (sdk : SdkState) (opts : SendTxOptions)
    (providerSend : String → String → Option String → Except String TxProviderResult) :
    Except String SdkSendResult × Nat :=
  if !sdk.isConnected then (.error notConnectedMsg, 0)
  else if opts.toAddress = "" || opts.amount = "" then
    (.error "to and amount are required", 0)
  else
    match providerSend opts.toAddress opts.amount opts.message with
    | .ok r => (.ok { success := true, txHash := jsOr r.hash r.txHash }, 1)
    | .error m => (.error (if m = "" then "Transaction failed" else m), 1)

/-- OctraSDK.getBalance: the queried address defaults to the connected
address under string truthiness. -/
def getBalance (sdk : SdkState) (address : Option String)
    (providerBalance : Option String → Except String BalanceProviderResult) :
    Except String String × Nat :=
  if !sdk.isConnected then (.error notConnectedMsg, 0)
  else
    match providerBalance (jsOr address sdk.connectedAddress) with
    | .ok r =>
      (.ok (match r.balance with
            | some b => if b = "" then r.raw else b
            | none => r.raw), 1)
    | .error m => (.error (if m = "" then "Failed to get balance" else m), 1)

/-- OctraSDK.signMessage. -/
def signMessage (sdk : SdkState) (message : String)
    (providerSign : String → Except String SignProviderResult) :
    Except String String × Nat :=
  if !sdk.isConnected then (.error notConnectedMsg, 0)
  else
    match providerSign message with
    | .ok r =>
      (.ok (match r.signature with
            | some s => if s = "" then r.raw else s
            | none => r.raw), 1)
    | .error m => (.error (if m = "" then "Failed to sign message" else m), 1)

/-- The network descriptor returned by getNetwork. -/
structure NetworkInfo where
  chainId : String
  networkId : String
  name : String
deriving DecidableEq, Repr

/-- The fallback network descriptor of OctraSDK.getNetwork. -/
def defaultNetwork : NetworkInfo :=
  { chainId := "0x1", networkId := "octra-mainnet", name := "Octra Network" }

/-- OctraSDK.getNetwork: with no provider the fallback is returned, and
a provider failure is caught with a warning and also yields the
fallback.  The provider argument is absent when no provider is
installed and otherwise carries the outcome of its getNetwork call.
Totality of this function embeds the promise never rejecting. -/
def getNetwork (provider : Option (Except String NetworkInfo)) : NetworkInfo :=
  match provider with
  | some (.ok n) => n
  | some (.error _) => defaultNetwork
  | none => defaultNetwork

end OctraSDK

/-- Modelled from the spec: the shouldGate statement of section 4.2 as a
proposition — true iff setup is complete and either the lock flag is not
explicitly unlocked or no decrypted wallet list is present.  Stated for
comparison against the source reading shouldShowUnlockScreen. -/
def shouldGateSpec (st : Store) : Prop :=
  WalletManager.isWalletSetup st = true ∧
    (st.isWalletLocked ≠ some "false" ∨ truthyStr st.wallets = false)

/-- A concrete decrypted wallet used by the scenario fixtures. -/
def walletA : Wallet :=
  { address := "oct1aaa" }

/-- A JSON parse oracle for connection requests that fails on every
input, as JSON.parse does on the inputs exercised below. -/
def pcNone : String → Option ConnReq :=
  fun _ => none

/-- A JSON parse oracle for contract requests that fails on every
input. -/
def ptNone : String → Option ContractReq :=
  fun _ => none

/-- A JSON parse oracle for wallet lists that fails on every input. -/
def pwNone : String → Option (List Wallet) :=
  fun _ => none

/-- A concrete pending contract request, as the background stores it
when a page calls callContract. -/
def ctrReqDemo : ContractReq :=
  { origin := "https dapp example", contractAddress := "oct1contract",
    methodName := "claimToken" }

/-- The scenario store of the reported defect: setup complete, wallet
locked, a contract request pending, no decrypted wallets loaded. -/
def stC2 : Store :=
  { walletPasswordHash := some "hash"
    walletPasswordSalt := some "salt"
    encryptedWallets := some "enc"
    wallets := none
    activeWalletId := none
    isWalletLocked := some "true"
    pendingConnectionRequest := none
    pendingContractRequest := some (.obj ctrReqDemo) }

/-- A store whose pending connection entry is the empty string: a string
on which JSON.parse fails, yet one the truthiness guard of
loadInitialData skips without removing. -/
def stC9 : Store :=
  { walletPasswordHash := some "hash"
    walletPasswordSalt := some "salt"
    encryptedWallets := some "enc"
    wallets := none
    activeWalletId := none
    isWalletLocked := some "true"
    pendingConnectionRequest := some (.str "")
    pendingContractRequest := none }

/-- A store whose pending connection entry is a non-empty string on
which JSON.parse fails. -/
def stC9bad : Store :=
  { walletPasswordHash := some "hash"
    walletPasswordSalt := some "salt"
    encryptedWallets := some "enc"
    wallets := none
    activeWalletId := none
    isWalletLocked := some "true"
    pendingConnectionRequest := some (.str "notjson")
    pendingContractRequest := none }

/-- A store exhibiting a partial multi-key unlock write: the lock flag
already says unlocked while the decrypted wallet list is still absent. -/
def stPartialWrite : Store :=
  { walletPasswordHash := some "hash"
    walletPasswordSalt := some "salt"
    encryptedWallets := some "enc"
    wallets := none
    activeWalletId := none
    isWalletLocked := some "false"
    pendingConnectionRequest := none
    pendingContractRequest := none }

/-- A fresh-install store: nothing recorded. -/
def stNoPassword : Store :=
  { walletPasswordHash := none
    walletPasswordSalt := none
    encryptedWallets := none
    wallets := none
    activeWalletId := none
    isWalletLocked := none
    pendingConnectionRequest := none
    pendingContractRequest := none }

/-- A locked store with recorded credentials and two encrypted records,
used by the unlock scenarios. -/
def stUnlock : Store :=
  { walletPasswordHash := some "hash"
    walletPasswordSalt := some "salt"
    encryptedWallets := some "enc"
    wallets := none
    activeWalletId := none
    isWalletLocked := some "true"
    pendingConnectionRequest := none
    pendingContractRequest := none }

/-- A password verifier accepting everything. -/
def verifyYes : String → String → String → Bool :=
  fun _ _ _ => true

/-- A password verifier rejecting everything. -/
def verifyNo : String → String → String → Bool :=
  fun _ _ _ => false

/-- A decryption oracle under which exactly the record with payload good
decrypts, to walletA; the record with payload bad is dropped. -/
def decryptDemo : String → String → Option Wallet :=
  fun d _ => if d = "good" then some walletA else none

/-- An encrypted-collection parse oracle yielding two records, one that
decryptDemo accepts and one it rejects. -/
def parseEncDemo : String → Option (List EncryptedWallet) :=
  fun _ => some [{ address := "oct1aaa", encryptedData := "good" },
                 { address := "oct1bbb", encryptedData := "bad" }]

/-- A wallet-list serializer for the fixtures. -/
def stringifyDemo : List Wallet → String :=
  fun l => toString l.length

/-- A pending connection request occupying the registry slot in the
conflict scenario. -/
def reqDemo : PendingRequest :=
  { id := 7, kind := .connection, payload := "connect", createdAt := 100 }

/-- A registry whose connection slot is occupied. -/
def regDemo : Registry :=
  { pendingConnection := some reqDemo, pendingContract := none, nextId := 8 }

/-- A page SDK instance that has not connected. -/
def sdkDisconnected : OctraSDK.SdkState :=
  { isConnected := false, connectedAddress := none }

/-- Concrete view-call options. -/
def voptsDemo : OctraSDK.ViewCallOptions :=
  { contractAddress := "oct1contract", methodName := "getName", params := [] }

/-- Concrete send-transaction options. -/
def soptsDemo : OctraSDK.SendTxOptions :=
  { toAddress := "oct1recipient", amount := "1", message := none }

/-- Provider oracles that would fail loudly if the SDK reached them. -/
def pvDemo : String → String → List String → Except String String :=
  fun _ _ _ => .error "unreachable"

/-- Provider oracle for contract calls in the fail-fast scenario. -/
def pcmDemo : String → String → List String → Except String OctraSDK.TxProviderResult :=
  fun _ _ _ => .error "unreachable"

/-- Provider oracle for send-transaction in the fail-fast scenario. -/
def psDemo : String → String → Option String → Except String OctraSDK.TxProviderResult :=
  fun _ _ _ => .error "unreachable"

/-- Provider oracle for balance queries in the fail-fast scenario. -/
def pbDemo : Option String → Except String OctraSDK.BalanceProviderResult :=
  fun _ => .error "unreachable"

/-- Provider oracle for message signing in the fail-fast scenario. -/
def pgDemo : String → Except String OctraSDK.SignProviderResult :=
  fun _ => .error "unreachable"

/-- Claim C1: the claim that openSurface opens the popup for every
request kind fails on the shipped code — the repository issue report
records that a contract-interaction request currently opens the expanded
view in a new tab, while the spec policy table opens the popup for every
kind; the tab is otherwise the surface of the explicit expand-view
action. -/
theorem c1_contract_request_opens_tab_not_popup :
    observedContractInteractionSurface = SurfaceKind.tab ∧
    openSurfaceSpec RequestKind.stateCall = SurfaceKind.popup ∧
    observedContractInteractionSurface ≠ openSurfaceSpec RequestKind.stateCall ∧
    openExpandedViewSurface = SurfaceKind.tab := by
  refine ⟨rfl, rfl, ?_, rfl⟩
  decide

/-- Claim C2: in the defect scenario — setup complete, wallet locked,
contract request pending — the popup controller shows the contract
screen before and after unlock, but the tab-side App component shows the
unlock screen and then the dashboard after a successful unlock: the two
entry points do not share the controller and the tab never renders the
contract-approval screen. -/
theorem c2_tab_renders_dashboard_after_unlock :
    WalletManager.shouldShowUnlockScreen stC2 = true ∧
    popupRender (loadInitialData pcNone ptNone pwNone stC2).1 = Screen.dappRequestHandler ∧
    popupRender (handleUnlock (loadInitialData pcNone ptNone pwNone stC2).1 [walletA]) =
      Screen.dappRequestHandler ∧
    appRender (appMount pwNone stC2 none) = Screen.unlockWallet ∧
    appRender (appHandleUnlock stC2 (appMount pwNone stC2 none) [walletA]) =
      Screen.dashboard := by
  decide

/-- Claim C3: submitting a request of a kind that is already pending
fails with RequestConflict, leaves the registry unchanged and leaves the
already-pending request of that kind untouched. -/
theorem c3_submit_conflict_preserves_pending (r : Registry) (k : RegKind)
    (payload : String) (now : Nat) (req : PendingRequest)
    (h : r.peek k = some req) :
    (r.submit k payload now).1 = .error .requestConflict ∧
    (r.submit k payload now).2 = r ∧
    ((r.submit k payload now).2).peek k = some req := by
  simp [Registry.submit, h]

/-- Claim C3 witness: the conflict behavior at a registry whose
connection slot is occupied. -/
theorem c3_submit_conflict_witness :
    (regDemo.submit RegKind.connection "again" 200).1 =
      .error RegistryError.requestConflict ∧
    (regDemo.submit RegKind.connection "again" 200).2 = regDemo ∧
    ((regDemo.submit RegKind.connection "again" 200).2).peek RegKind.connection =
      some reqDemo :=
  c3_submit_conflict_preserves_pending regDemo RegKind.connection "again" 200 reqDemo rfl

/-- Claim C4: shouldShowUnlockScreen is true exactly when setup is
complete and either the lock flag is not the explicit string false or no
decrypted wallet list is present; and a store with no recorded password
never gates. -/
theorem c4_shouldGate_iff (st : Store) :
    (WalletManager.shouldShowUnlockScreen st = true ↔ shouldGateSpec st) ∧
    (st.walletPasswordHash = none → WalletManager.shouldShowUnlockScreen st = false) := by
  constructor
  · unfold WalletManager.shouldShowUnlockScreen shouldGateSpec WalletManager.isWalletSetup
    by_cases h : truthyStr st.walletPasswordHash
    · simp [h]
    · simp [h]
  · intro hp
    unfold WalletManager.shouldShowUnlockScreen
    simp [truthyStr, hp]

/-- Claim C4 witness: a fresh install is never gated. -/
theorem c4_shouldGate_witness :
    WalletManager.shouldShowUnlockScreen stNoPassword = false :=
  (c4_shouldGate_iff stNoPassword).2 rfl

/-- Claim C10: getNetwork resolves with the fixed fallback descriptor
both when no provider is present and when the provider call fails, and
that descriptor is exactly the mainnet record; totality of the embedded
function reflects the promise never rejecting. -/
theorem c10_getNetwork_defaults (m : String) :
    OctraSDK.getNetwork none = OctraSDK.defaultNetwork ∧
    OctraSDK.getNetwork (some (.error m)) = OctraSDK.defaultNetwork ∧
    OctraSDK.defaultNetwork =
      { chainId := "0x1", networkId := "octra-mainnet", name := "Octra Network" } :=
  ⟨rfl, rfl, rfl⟩

/-- Claim C5: unlockWallets fails with an authentication error both when
the password hash or salt is missing and when the password does not
verify, and in every failure case the store is returned unchanged — the
lock flag keeps its prior value and the stored wallet list is not
mutated. -/
theorem c5_unlock_failure_preserves_store
    (verify : String → String → String → Bool)
    (decrypt : String → String → Option Wallet)
    (parseEncrypted : String → Option (List EncryptedWallet))
    (stringifyWallets : List Wallet → String)
    (st : Store) (password : String)
    (h : truthyStr st.walletPasswordHash = false ∨
         truthyStr st.walletPasswordSalt = false ∨
         verify password (st.walletPasswordHash.getD "") (st.walletPasswordSalt.getD "") = false) :
    (∃ e : WalletManager.AuthError,
      (WalletManager.unlockWallets verify decrypt parseEncrypted stringifyWallets st password).1 =
        .error e) ∧
    (WalletManager.unlockWallets verify decrypt parseEncrypted stringifyWallets st password).2 = st := by
  unfold WalletManager.unlockWallets
  by_cases hc : (!truthyStr st.walletPasswordHash || !truthyStr st.walletPasswordSalt) = true
  · rw [if_pos hc]
    exact ⟨⟨.noPasswordSet, rfl⟩, rfl⟩
  · have hv : verify password (st.walletPasswordHash.getD "") (st.walletPasswordSalt.getD "") = false := by
      rcases h with h | h | h
      · exact absurd (by simp [h]) hc
      · exact absurd (by simp [h]) hc
      · exact h
    rw [if_neg hc, hv]
    exact ⟨⟨.invalidPassword, rfl⟩, rfl⟩

/-- Claim C5 witness: unlock with a rejected password at a concrete
store fails and leaves the store untouched. -/
theorem c5_unlock_failure_witness :
    (∃ e : WalletManager.AuthError,
      (WalletManager.unlockWallets verifyNo decryptDemo parseEncDemo stringifyDemo stUnlock "pw").1 =
        .error e) ∧
    (WalletManager.unlockWallets verifyNo decryptDemo parseEncDemo stringifyDemo stUnlock "pw").2 =
      stUnlock :=
  c5_unlock_failure_preserves_store verifyNo decryptDemo parseEncDemo stringifyDemo stUnlock "pw"
    (Or.inr (Or.inr rfl))

/-- Helper: on a verified unlock the call reduces to the success
branch. -/
theorem unlockWallets_success_eq
    (verify : String → String → String → Bool)
    (decrypt : String → String → Option Wallet)
    (parseEncrypted : String → Option (List EncryptedWallet))
    (stringifyWallets : List Wallet → String)
    (st : Store) (password : String)
    (hh : truthyStr st.walletPasswordHash = true)
    (hs : truthyStr st.walletPasswordSalt = true)
    (hv : verify password (st.walletPasswordHash.getD "") (st.walletPasswordSalt.getD "") = true) :
    WalletManager.unlockWallets verify decrypt parseEncrypted stringifyWallets st password =
      (let survivors := WalletManager.survivorsOf decrypt parseEncrypted st password
       let st1 := { st with wallets := some (stringifyWallets survivors),
                            isWalletLocked := some "false" }
       (.ok survivors,
        match survivors with
        | [] => st1
        | w :: _ =>
          if truthyStr st.activeWalletId then st1
          else { st1 with activeWalletId := some w.address })) := by
  unfold WalletManager.unlockWallets
  simp [hh, hs, hv]

/-- Claim C6: after a verified unlock, the result is the list of wallets
surviving independent per-record decryption (a failing record is dropped
without aborting the batch, as the membership characterization states),
the surviving list and the unlocked flag are written to the store, and
the active-wallet pointer is set to the first survivor exactly when it
was absent and the list is non-empty. -/
theorem c6_unlock_success_behavior
    (verify : String → String → String → Bool)
    (decrypt : String → String → Option Wallet)
    (parseEncrypted : String → Option (List EncryptedWallet))
    (stringifyWallets : List Wallet → String)
    (st : Store) (password : String)
    (hh : truthyStr st.walletPasswordHash = true)
    (hs : truthyStr st.walletPasswordSalt = true)
    (hv : verify password (st.walletPasswordHash.getD "") (st.walletPasswordSalt.getD "") = true) :
    (WalletManager.unlockWallets verify decrypt parseEncrypted stringifyWallets st password).1 =
      .ok (WalletManager.survivorsOf decrypt parseEncrypted st password) ∧
    (∀ w : Wallet, w ∈ WalletManager.survivorsOf decrypt parseEncrypted st password ↔
      ∃ ew ∈ WalletManager.parsedEncryptedOf parseEncrypted st,
        decrypt ew.encryptedData password = some w) ∧
    (WalletManager.unlockWallets verify decrypt parseEncrypted stringifyWallets st password).2.wallets =
      some (stringifyWallets (WalletManager.survivorsOf decrypt parseEncrypted st password)) ∧
    (WalletManager.unlockWallets verify decrypt parseEncrypted stringifyWallets st password).2.isWalletLocked =
      some "false" ∧
    (∀ w ws, WalletManager.survivorsOf decrypt parseEncrypted st password = w :: ws →
      truthyStr st.activeWalletId = false →
      (WalletManager.unlockWallets verify decrypt parseEncrypted stringifyWallets st password).2.activeWalletId =
        some w.address) ∧
    (truthyStr st.activeWalletId = true →
      (WalletManager.unlockWallets verify decrypt parseEncrypted stringifyWallets st password).2.activeWalletId =
        st.activeWalletId) ∧
    (WalletManager.survivorsOf decrypt parseEncrypted st password = [] →
      (WalletManager.unlockWallets verify decrypt parseEncrypted stringifyWallets st password).2.activeWalletId =
        st.activeWalletId) := by
  rw [unlockWallets_success_eq verify decrypt parseEncrypted stringifyWallets st password hh hs hv]
  refine ⟨rfl, ?_, ?_, ?_, ?_, ?_, ?_⟩
  · intro w
    simp [WalletManager.survivorsOf, List.mem_filterMap]
  · cases hsv : WalletManager.survivorsOf decrypt parseEncrypted st password with
    | nil => simp [hsv]
    | cons w ws =>
      by_cases ha : truthyStr st.activeWalletId <;> simp [hsv, ha]
  · cases hsv : WalletManager.survivorsOf decrypt parseEncrypted st password with
    | nil => simp [hsv]
    | cons w ws =>
      by_cases ha : truthyStr st.activeWalletId <;> simp [hsv, ha]
  · intro w ws hsv hna
    simp [hsv, hna]
  · intro ha
    cases hsv : WalletManager.survivorsOf decrypt parseEncrypted st password with
    | nil => simp [hsv]
    | cons w ws => simp [hsv, ha]
  · intro hsv
    simp [hsv]

/-- Claim C6 witness: a concrete unlock in which one of two records
decrypts — the survivor is returned, written, and made the active
wallet. -/
theorem c6_unlock_success_witness :
    truthyStr stUnlock.walletPasswordHash = true ∧
    (WalletManager.unlockWallets verifyYes decryptDemo parseEncDemo stringifyDemo stUnlock "pw").1 =
      .ok [walletA] ∧
    (WalletManager.unlockWallets verifyYes decryptDemo parseEncDemo stringifyDemo stUnlock "pw").2.activeWalletId =
      some "oct1aaa" := by
  have h := c6_unlock_success_behavior verifyYes decryptDemo parseEncDemo stringifyDemo
    stUnlock "pw" (by decide) (by decide) rfl
  exact ⟨by decide, h.1, h.2.2.2.2.1 walletA [] (by decide) (by decide)⟩

/-- Claim C8: every connection-requiring SDK operation invoked while not
connected rejects with the fixed not-connected message and sends zero
messages to the provider. -/
theorem c8_not_connected_fails_fast (sdk : OctraSDK.SdkState)
    (h : sdk.isConnected = false)
    (vopts : OctraSDK.ViewCallOptions) (sopts : OctraSDK.SendTxOptions)
    (addr : Option String) (msg : String)
    (pv : String → String → List String → Except String String)
    (pcm : String → String → List String → Except String OctraSDK.TxProviderResult)
    (ps : String → String → Option String → Except String OctraSDK.TxProviderResult)
    (pb : Option String → Except String OctraSDK.BalanceProviderResult)
    (pg : String → Except String OctraSDK.SignProviderResult) :
    OctraSDK.viewCall sdk vopts pv = (.error OctraSDK.notConnectedMsg, 0) ∧
    OctraSDK.callContract sdk vopts pcm = (.error OctraSDK.notConnectedMsg, 0) ∧
    OctraSDK.sendTransaction sdk sopts ps = (.error OctraSDK.notConnectedMsg, 0) ∧
    OctraSDK.getBalance sdk addr pb = (.error OctraSDK.notConnectedMsg, 0) ∧
    OctraSDK.signMessage sdk msg pg = (.error OctraSDK.notConnectedMsg, 0) := by
  simp [OctraSDK.viewCall, OctraSDK.callContract, OctraSDK.sendTransaction,
        OctraSDK.getBalance, OctraSDK.signMessage, h]

/-- Claim C8 witness: the five operations at a concrete disconnected SDK
instance, with provider oracles that would be reached only by a round
trip. -/
theorem c8_not_connected_witness :
    OctraSDK.viewCall sdkDisconnected voptsDemo pvDemo = (.error OctraSDK.notConnectedMsg, 0) ∧
    OctraSDK.callContract sdkDisconnected voptsDemo pcmDemo = (.error OctraSDK.notConnectedMsg, 0) ∧
    OctraSDK.sendTransaction sdkDisconnected soptsDemo psDemo = (.error OctraSDK.notConnectedMsg, 0) ∧
    OctraSDK.getBalance sdkDisconnected none pbDemo = (.error OctraSDK.notConnectedMsg, 0) ∧
    OctraSDK.signMessage sdkDisconnected "hello" pgDemo = (.error OctraSDK.notConnectedMsg, 0) :=
  c8_not_connected_fails_fast sdkDisconnected rfl voptsDemo soptsDemo none "hello"
    pvDemo pcmDemo psDemo pbDemo pgDemo

/-- Claim C7 counterexample: a reachable partial multi-key write — setup
complete, lock flag already the explicit unlocked string, wallet list
still absent — at which the lock-state reader isWalletLocked reports
unlocked (false), not the still-locked answer the claim requires of
every reader. -/
theorem c7_isWalletLocked_intermediate_write_cex :
    WalletManager.isWalletSetup stPartialWrite = true ∧
    stPartialWrite.isWalletLocked = some "false" ∧
    stPartialWrite.wallets = none ∧
    WalletManager.isWalletLocked stPartialWrite = false := by
  decide

/-- Claim C7 (amended): the gate reader shouldShowUnlockScreen does
treat missing or partial inputs as still-locked — with setup complete it
gates whenever no truthy decrypted wallet list is present, even when the
lock flag already reads unlocked. -/
theorem c7_gate_reader_defaults_locked (st : Store)
    (hsetup : WalletManager.isWalletSetup st = true)
    (hw : truthyStr st.wallets = false) :
    WalletManager.shouldShowUnlockScreen st = true := by
  unfold WalletManager.isWalletSetup at hsetup
  unfold WalletManager.shouldShowUnlockScreen
  simp [hsetup, hw]

/-- Claim C7 witness: the gate reader at the concrete partial write. -/
theorem c7_gate_reader_witness :
    WalletManager.shouldShowUnlockScreen stPartialWrite = true :=
  c7_gate_reader_defaults_locked stPartialWrite (by decide) (by decide)

/-- Helper: a state with no connection request never renders the
connection screen. -/
theorem popupRender_ne_dappConnection (s : PopupState)
    (h : s.connectionRequest = none) :
    popupRender s ≠ Screen.dappConnection := by
  unfold popupRender
  simp [h]
  split
  · decide
  · split
    · decide
    · split
      · decide
      · decide

/-- Helper: a state with no contract request never renders the contract
screen. -/
theorem popupRender_ne_dappRequestHandler (s : PopupState)
    (h : s.contractRequest = none) :
    popupRender s ≠ Screen.dappRequestHandler := by
  unfold popupRender
  split
  · decide
  · simp [h]
    split
    · decide
    · split
      · decide
      · decide

/-- Claim C9 counterexample: an empty-string pending entry is a string
on which JSON.parse fails (modelled by the parse oracle), yet the
truthiness guard of loadInitialData skips it entirely — the store entry
is not removed, contradicting the claim as stated; the surface still
renders as if no request were pending. -/
theorem c9_empty_string_not_removed_cex :
    stC9.pendingConnectionRequest = some (StoredVal.str "") ∧
    pcNone "" = none ∧
    (loadInitialData pcNone ptNone pwNone stC9).2 = stC9 ∧
    (loadInitialData pcNone ptNone pwNone stC9).1.connectionRequest = none := by
  decide

/-- Helper: with a corrupted non-empty connection string, the
connection step yields no request and removes the entry. -/
theorem connPhase_removed (pc : String → Option ConnReq) (st : Store) (s : String)
    (h : st.pendingConnectionRequest = some (StoredVal.str s))
    (hne : s ≠ "") (hp : pc s = none) :
    connPhase pc st = (none, { st with pendingConnectionRequest := none }) := by
  have hrc : readPending pc st.pendingConnectionRequest = (none, true) := by
    rw [h]
    simp [readPending, hne, hp]
  unfold connPhase
  rw [hrc]

/-- Helper: with a corrupted non-empty contract string, the contract
step yields no request and removes the entry. -/
theorem contractPhase_removed (pt : String → Option ContractReq) (st : Store) (s : String)
    (h : st.pendingContractRequest = some (StoredVal.str s))
    (hne : s ≠ "") (hp : pt s = none) :
    contractPhase pt st = (none, { st with pendingContractRequest := none }) := by
  have hrk : readPending pt st.pendingContractRequest = (none, true) := by
    rw [h]
    simp [readPending, hne, hp]
  unfold contractPhase
  rw [hrk]

/-- Helper: the connection step never touches the contract entry. -/
theorem connPhase_preserves_contract (pc : String → Option ConnReq) (st : Store) :
    (connPhase pc st).2.pendingContractRequest = st.pendingContractRequest := by
  unfold connPhase
  cases hx : readPending pc st.pendingConnectionRequest with
  | mk r b => cases b <;> rfl

/-- Helper: the contract step never touches the connection entry. -/
theorem contractPhase_preserves_conn (pt : String → Option ContractReq) (st : Store) :
    (contractPhase pt st).2.pendingConnectionRequest = st.pendingConnectionRequest := by
  unfold contractPhase
  cases hx : readPending pt st.pendingContractRequest with
  | mk r b => cases b <;> rfl

/-- Helper: the state and store produced by loadInitialData carry
exactly the pending-phase outputs in the request fields and the store
component, on both branches of the gate. -/
theorem loadInitialData_fields (pc : String → Option ConnReq)
    (pt : String → Option ContractReq) (pw : String → Option (List Wallet))
    (st : Store) :
    (loadInitialData pc pt pw st).1.connectionRequest = (loadPendingPhase pc pt st).1.1 ∧
    (loadInitialData pc pt pw st).1.contractRequest = (loadPendingPhase pc pt st).1.2 ∧
    (loadInitialData pc pt pw st).2 = (loadPendingPhase pc pt st).2 := by
  simp only [loadInitialData]
  refine ⟨?_, ?_, ?_⟩ <;> (split <;> rfl)

/-- Claim C9 (amended): for a pending entry holding a non-empty string
that fails to parse as JSON, the mount removes the store entry, leaves
no request of that kind in component state, and never renders the
corresponding request screen — for the connection and for the contract
entry alike. -/
theorem c9_invalid_pending_removed
    (pc : String → Option ConnReq) (pt : String → Option ContractReq)
    (pw : String → Option (List Wallet)) (st : Store) (s : String) :
    (st.pendingConnectionRequest = some (StoredVal.str s) → s ≠ "" → pc s = none →
      (loadInitialData pc pt pw st).2.pendingConnectionRequest = none ∧
      (loadInitialData pc pt pw st).1.connectionRequest = none ∧
      popupRender (loadInitialData pc pt pw st).1 ≠ Screen.dappConnection) ∧
    (st.pendingContractRequest = some (StoredVal.str s) → s ≠ "" → pt s = none →
      (loadInitialData pc pt pw st).2.pendingContractRequest = none ∧
      (loadInitialData pc pt pw st).1.contractRequest = none ∧
      popupRender (loadInitialData pc pt pw st).1 ≠ Screen.dappRequestHandler) := by
  obtain ⟨hf1, hf2, hf3⟩ := loadInitialData_fields pc pt pw st
  constructor
  · intro h hne hp
    have hc := connPhase_removed pc st s h hne hp
    have hstore : (loadPendingPhase pc pt st).2.pendingConnectionRequest = none := by
      unfold loadPendingPhase
      rw [hc, contractPhase_preserves_conn]
    have hreq : (loadPendingPhase pc pt st).1.1 = none := by
      unfold loadPendingPhase
      rw [hc]
    have hcr : (loadInitialData pc pt pw st).1.connectionRequest = none := by
      rw [hf1, hreq]
    refine ⟨?_, hcr, popupRender_ne_dappConnection _ hcr⟩
    rw [hf3, hstore]
  · intro h hne hp
    have hck : (connPhase pc st).2.pendingContractRequest = some (StoredVal.str s) := by
      rw [connPhase_preserves_contract, h]
    have hk := contractPhase_removed pt (connPhase pc st).2 s hck hne hp
    have hstore : (loadPendingPhase pc pt st).2.pendingContractRequest = none := by
      unfold loadPendingPhase
      rw [hk]
    have hreq : (loadPendingPhase pc pt st).1.2 = none := by
      unfold loadPendingPhase
      rw [hk]
    have hcr : (loadInitialData pc pt pw st).1.contractRequest = none := by
      rw [hf2, hreq]
    refine ⟨?_, hcr, popupRender_ne_dappRequestHandler _ hcr⟩
    rw [hf3, hstore]

/-- Claim C9 witness: the mount at a concrete store whose connection
entry is the non-empty unparsable string notjson. -/
theorem c9_invalid_pending_witness :
    (loadInitialData pcNone ptNone pwNone stC9bad).2.pendingConnectionRequest = none ∧
    (loadInitialData pcNone ptNone pwNone stC9bad).1.connectionRequest = none ∧
    popupRender (loadInitialData pcNone ptNone pwNone stC9bad).1 ≠ Screen.dappConnection :=
  (c9_invalid_pending_removed pcNone ptNone pwNone stC9bad "notjson").1 rfl (by decide) rfl
